import Mathlib

/-!
Shallow embedding of the `cloudmetrics_pipeline` repository
(`cloudmetrics_pipeline/find_scenes.py` and `cloudmetrics_pipeline/masks.py`),
and a verification of its specification claims.

Modelling conventions:
* A filesystem path (`pathlib.Path`) is its list of components; `str(path)`
  joins the components with `/`.
* A directory is a list of `FileEntry` (filename plus the file's content) in
  directory-listing order; `Path.glob("*.<ext>")` keeps that order.
* Machine floats of the greyscale computation are embedded as exact rationals
  (`Rat`); the claims under verification are about the comparison structure,
  not float rounding.
* Filesystem writes are collected in an explicit write log (a run returns the
  writes performed before it finished or raised), so that "no file is written"
  is statable even for aborting runs.
* Python exceptions are values of `PyError`; a raised exception propagates as
  `Except.error` (the source catches nothing).
-/

namespace CloudmetricsPipeline

/-- A filesystem path as its list of components (model of `pathlib.Path`). -/
abbrev FsPath := List String

/-- Model of `str(path)`: components joined by `/`. -/
def pathToString (p : FsPath) : String :=
  String.intercalate "/" p

/-- The final component of a path (`Path.name`), `""` for the empty path. -/
def pathName (p : FsPath) : String :=
  p.getLastD ""

/-- The parent directory (`Path.parent` as used on `data_path / file`). -/
def pathParent (p : FsPath) : FsPath :=
  p.dropLast

/-- Index of the last `'.'` in a character list, if any. -/
def lastDotIdx : List Char → Option Nat
  | [] => none
  | c :: rest =>
    match lastDotIdx rest with
    | some i => some (i + 1)
    | none => if c = '.' then some 0 else none

/-- Model of `pathlib.PurePath.stem` on a filename: the name with its final
suffix removed, where the suffix is the part from the last `'.'` provided that
dot is neither the first nor the last character (CPython's
`0 < name.rfind(".") < len(name) - 1` rule). -/
def stemOfName (name : String) : String :=
  let cs := name.toList
  match lastDotIdx cs with
  | some k => if 0 < k ∧ k + 1 < cs.length then String.mk (cs.take k) else name
  | none => name

/-- `Path.stem` of a full path. -/
def pathStem (p : FsPath) : String :=
  stemOfName (pathName p)

/-- The Python exceptions that the embedded code can raise. -/
inductive PyError where
  /-- `NoReplaceDict.KeyExistsException(key)`. -/
  | keyExists (key : String)
  /-- `FileNotFoundError(msg)`. -/
  | fileNotFound (msg : String)
  /-- `NotImplementedError(msg)`. -/
  | notImplemented (msg : String)
  /-- `AttributeError`, e.g. from calling `.parent` on a `str`. -/
  | attributeError (msg : String)
  /-- An I/O or library failure while reading a file (e.g. `skimage.io.imread`
  or `xr.open_dataarray` on content of the wrong kind). -/
  | ioError (msg : String)
  deriving DecidableEq, Repr

/-- `key in self` for an insertion-ordered Python dict modelled as an
association list. -/
def containsKey {α : Type} (d : List (String × α)) (k : String) : Bool :=
  d.any (fun p => p.1 == k)

/-- Python dict lookup (first occurrence; an insertion-ordered dict holds each
key at most once). -/
def assocLookup {α : Type} : List (String × α) → String → Option α
  | [], _ => none
  | (k', v) :: rest, k => if k' = k then some v else assocLookup rest k

/-- `NoReplaceDict.__setitem__` (find_scenes.py lines 24-27): raise
`KeyExistsException(key)` when the key is already present — before any
mutation, so the mapping is unchanged on error — else insert the binding;
a Python dict appends a new key at the end of the insertion order. -/
def noReplaceSetItem {α : Type} (d : List (String × α)) (k : String) (v : α) :
    Except PyError (List (String × α)) :=
  if containsKey d k then .error (.keyExists k) else .ok (d ++ [(k, v)])

/-- `dict.__setitem__` (no duplicate check): replace the value in place if the
key exists, keeping its position in insertion order, else append. -/
def dictSet {α : Type} (d : List (String × α)) (k : String) (v : α) :
    List (String × α) :=
  if containsKey d k then d.map (fun p => if p.1 = k then (k, v) else p)
  else d ++ [(k, v)]

/-- CPython `dict.update(other)`: merge `other` left to right; crucially this
is `PyDict_Merge`, which does NOT call an overridden `__setitem__`, so on a
`NoReplaceDict` it silently overwrites existing keys. -/
def dictUpdate {α : Type} (d other : List (String × α)) : List (String × α) :=
  other.foldl (fun acc p => dictSet acc p.1 p.2) d

/-! ## Constants of `find_scenes.py` (lines 8-12) -/

/-- `FILETYPES = dict(image=["png", "jpg", "jpeg"], netcdf=["nc", "nc4"])`,
in the source's (insertion) order. The specification calls the `netcdf`
category "array-data". -/
def FILETYPES : List (String × List String) :=
  [("image", ["png", "jpg", "jpeg"]), ("netcdf", ["nc", "nc4"])]

/-- `DATETIME_FORMAT = "%Y%d%m%H%M"` — note `%d` (day) precedes `%m`
(month). -/
def DATETIME_FORMAT : String := "%Y%d%m%H%M"

/-- `SCENE_PATH = "scenes"`. -/
def SCENE_PATH : String := "scenes"

/-- `SCENE_DB_FILENAME = "scene_ids.yml"`. -/
def SCENE_DB_FILENAME : String := "scene_ids.yml"

/-! ## Timestamps and `strftime` -/

/-- A calendar timestamp (the fields `strftime` needs for
`DATETIME_FORMAT`). -/
structure Timestamp where
  year : Nat
  month : Nat
  day : Nat
  hour : Nat
  minute : Nat
  deriving DecidableEq, Repr

/-- Decimal rendering of `n` left-padded with zeros to `width` digits
(`strftime` pads `%Y` to 4 and `%m`, `%d`, `%H`, `%M` to 2). -/
def padZeros (width n : Nat) : String :=
  let s := toString n
  if s.length < width then String.mk (List.replicate (width - s.length) '0') ++ s
  else s

/-- One `strftime` `%`-directive. -/
def strftimeDirective (t : Timestamp) (c : Char) : String :=
  if c = 'Y' then padZeros 4 t.year
  else if c = 'm' then padZeros 2 t.month
  else if c = 'd' then padZeros 2 t.day
  else if c = 'H' then padZeros 2 t.hour
  else if c = 'M' then padZeros 2 t.minute
  else String.mk ['%', c]

/-- Interpreter for a `strftime` format string (the directives used by this
program). -/
def strftimeAux (t : Timestamp) : List Char → List Char
  | [] => []
  | '%' :: c :: rest => (strftimeDirective t c).toList ++ strftimeAux t rest
  | c :: rest => c :: strftimeAux t rest

/-- `time.strftime(fmt)` on a timestamp. -/
def strftime (fmt : String) (t : Timestamp) : String :=
  String.mk (strftimeAux t fmt.toList)

/-! ## File contents and the write log -/

/-- An RGB pixel, channels as exact rationals. -/
abbrev Rgb := Rat × Rat × Rat

/-- `skimage.color.rgb2gray`: the luminance-preserving conversion
`0.2125 R + 0.7154 G + 0.0721 B`. -/
def rgb2gray (px : Rgb) : Rat :=
  0.2125 * px.1 + 0.7154 * px.2.1 + 0.0721 * px.2.2

/-- The data array stored in a netCDF source file, abstracted to what
`_make_netcdf_scenes` inspects: its `scene_id` coordinate values (if that
coordinate exists) and its `time` coordinate values (if that coordinate
exists). -/
structure NcArray where
  scene_ids : Option (List String)
  times : Option (List Timestamp)
  deriving DecidableEq, Repr

/-- Content of a source file on disk. -/
inductive FileContent where
  /-- A raster image (png/jpg/jpeg): its pixel grid. -/
  | image (pixels : List (List Rgb))
  /-- A netCDF file holding a single data array. -/
  | ncArray (arr : NcArray)
  /-- Anything else (never produced by this program; discovery selects by
  extension only). -/
  | other
  deriving DecidableEq, Repr

/-- A directory entry: filename and content. -/
structure FileEntry where
  name : String
  content : FileContent
  deriving DecidableEq, Repr

/-- `da.sel(...)`: which slice of a source array a scene file holds. -/
inductive Sel where
  /-- `da.sel(scene_id=scene_id)`. -/
  | bySceneId (scene_id : String)
  /-- `da.sel(time=time)`. -/
  | byTime (t : Timestamp)
  deriving DecidableEq, Repr

/-- Data written to a file by the pipeline. -/
inductive FileData where
  /-- A boolean cloud mask serialized with `DataArray.to_netcdf`. -/
  | mask (m : List (List Bool))
  /-- A slice of the source array at `path`, serialized with `to_netcdf`. -/
  | ncSlice (source : FsPath) (sel : Sel)
  /-- A text file (the YAML manifest). -/
  | text (s : String)
  deriving DecidableEq, Repr

/-- The filesystem writes a run performs, in order. A write replaces any
previous content at its path. -/
abbrev WriteLog := List (FsPath × FileData)

/-- Replay a write log over an initial filesystem: the last write to a path
wins (mode `"w"` truncates, `to_netcdf` overwrites). -/
def applyLog (fs : FsPath → Option FileData) (log : WriteLog) :
    FsPath → Option FileData :=
  log.foldl (fun f e => fun q => if q = e.1 then some e.2 else f q) fs

/-! ## File discovery (`make_scenes`, lines 92-98) -/

/-- Model of Python `str.endswith`, which is also what the `*.{ext}` glob
pattern tests at a single directory level: the name ends with the given
suffix (structural, over the character lists). -/
def strEndsWith (s suffix : String) : Bool :=
  suffix.toList.isSuffixOf s.toList

/-- `data_path.glob(f"*.{file_ext}")` over a directory listing: the entries
whose name ends in `"." ++ file_ext`, in listing order. -/
def globExt (dir : List FileEntry) (file_ext : String) : List FileEntry :=
  dir.filter (fun f => strEndsWith f.name ("." ++ file_ext))

/-- One `setdefault`-plus-`+=` step of the discovery loop: skip when the glob
is empty, else append the matches to the category's list (creating the key at
the end of insertion order when absent). -/
def addGlobbed (m : List (String × List FileEntry)) (filetype : String)
    (fps : List FileEntry) : List (String × List FileEntry) :=
  if fps.isEmpty then m
  else if containsKey m filetype then
    m.map (fun p => if p.1 = filetype then (p.1, p.2 ++ fps) else p)
  else m ++ [(filetype, fps)]

/-- The discovery loop of `make_scenes`: for each filetype of `FILETYPES`,
for each extension, glob and accumulate into `filepaths_by_filetype`. -/
def discoverFiles (dir : List FileEntry) : List (String × List FileEntry) :=
  FILETYPES.foldl
    (fun m ft => ft.2.foldl (fun m' e => addGlobbed m' ft.1 (globExt dir e)) m)
    []

/-! ## Scene extraction -/

/-- The hard-coded default of `_make_image_scene`'s `greyscale_threshold`
parameter (and of `rgb_greyscale_mask`'s): `0.2`. -/
def DEFAULT_GREYSCALE_THRESHOLD : Rat := 0.2

/-- `_make_image_scene(filepath, greyscale_threshold=0.2)` (lines 30-43):
read the image, convert to greyscale, threshold into a boolean cloud mask,
write it to `<parent>/scenes/<stem>.nc` (the `mkdir(exist_ok=True,
parents=True)` is implicit in the map-based filesystem model) and return
`(scene_id, filepath_scene)`. Reading a file that is not an image fails
inside `skimage.io.imread`. The returned triple also carries the write
performed. -/
def make_image_scene (filepath : FsPath) (content : FileContent)
    (greyscale_threshold : Rat) :
    Except PyError ((String × FsPath) × (FsPath × FileData)) :=
  match content with
  | .image pixels =>
    let scene_id := pathStem filepath
    let image_grey := pixels.map (fun row => row.map rgb2gray)
    let cloud_mask := image_grey.map
      (fun row => row.map (fun g => decide (g > greyscale_threshold)))
    let filepath_scene := pathParent filepath ++ [SCENE_PATH, scene_id ++ ".nc"]
    .ok ((scene_id, filepath_scene), (filepath_scene, .mask cloud_mask))
  | _ => .error (.ioError ("could not read image " ++ pathToString filepath))

/-- The generator `_individual_scenes_in_file` of `_make_netcdf_scenes`
(lines 50-68), materialized as the list it yields:
if the array has a `scene_id` coordinate, each coordinate value verbatim with
the slice at it; else if it has a `time` coordinate, for each time value the
id `f"{filename_stem}__{time_str}"` with `time_str` the `strftime`
`DATETIME_FORMAT` rendering, with the slice at that time; else
`NotImplementedError`. -/
def individual_scenes_in_file (filename_stem : String) (da : NcArray) :
    Except PyError (List (String × Sel)) :=
  match da.scene_ids with
  | some sids => .ok (sids.map (fun scene_id => (scene_id, Sel.bySceneId scene_id)))
  | none =>
    match da.times with
    | some ts =>
      .ok (ts.map (fun time =>
        (filename_stem ++ "__" ++ strftime DATETIME_FORMAT time, Sel.byTime time)))
    | none =>
      .error (.notImplemented
        ("When using a netCDF file as source it should either"
          ++ "have a `scene_id` or `time` 1D coordinate defined"))

/-- The write loop of `_make_netcdf_scenes` (lines 70-75). For each yielded
scene the source runs
`filename_scene = f"{scene_id}.nc"` and then
`filename_scene.parent.mkdir(exist_ok=True, parents=True)` —
but `filename_scene` is a Python `str`, and `str` has no attribute `parent`,
so the first iteration raises `AttributeError` before anything is written
(the `to_netcdf` call and the `scenes[scene_id] = filepath_scene` insert on
the `NoReplaceDict` are on the later, never-reached lines of the loop body).
An empty scene list skips the loop and returns the empty dict. -/
def netcdf_write_loop (_filepath : FsPath) (pairs : List (String × Sel)) :
    WriteLog × Except PyError (List (String × FsPath)) :=
  match pairs with
  | [] => ([], .ok [])
  | _ :: _ =>
    ([], .error (.attributeError "str object has no attribute parent"))

/-- `_make_netcdf_scenes(filepath)` (lines 46-77): open the data array
(fails on non-netCDF content inside `xr.open_dataarray`), enumerate the
scenes the generator yields, then run the write loop. -/
def make_netcdf_scenes (filepath : FsPath) (content : FileContent) :
    WriteLog × Except PyError (List (String × FsPath)) :=
  match content with
  | .ncArray da =>
    match individual_scenes_in_file (pathStem filepath) da with
    | .error e => ([], .error e)
    | .ok pairs => netcdf_write_loop filepath pairs
  | _ =>
    ([], .error (.ioError ("could not open dataarray " ++ pathToString filepath)))

/-! ## `make_scenes` (lines 80-114) -/

/-- The `filetype == "image"` branch of `make_scenes`: for each image file,
extract its scene and insert it into the `NoReplaceDict` (which raises
`KeyExistsException` on a duplicate id — after the scene file write, which
happens inside `_make_image_scene`). -/
def processImageFiles (data_path : FsPath) :
    List FileEntry → List (String × FsPath) → WriteLog →
    WriteLog × Except PyError (List (String × FsPath))
  | [], scenes, log => (log, .ok scenes)
  | e :: rest, scenes, log =>
    match make_image_scene (data_path ++ [e.name]) e.content
        DEFAULT_GREYSCALE_THRESHOLD with
    | .error err => (log, .error err)
    | .ok ((scene_id, filepath_scene), w) =>
      match noReplaceSetItem scenes scene_id filepath_scene with
      | .error err => (log ++ [w], .error err)
      | .ok scenes' => processImageFiles data_path rest scenes' (log ++ [w])

/-- The `filetype == "netcdf"` branch of `make_scenes`: for each netCDF file,
`scenes.update(_make_netcdf_scenes(filepath))` — `dict.update`, which
bypasses `NoReplaceDict.__setitem__`. -/
def processNetcdfFiles (data_path : FsPath) :
    List FileEntry → List (String × FsPath) → WriteLog →
    WriteLog × Except PyError (List (String × FsPath))
  | [], scenes, log => (log, .ok scenes)
  | e :: rest, scenes, log =>
    match make_netcdf_scenes (data_path ++ [e.name]) e.content with
    | (w, .error err) => (log ++ w, .error err)
    | (w, .ok pairs) =>
      processNetcdfFiles data_path rest (dictUpdate scenes pairs) (log ++ w)

/-- The dispatch loop of `make_scenes` over `filepaths_by_filetype.items()`;
an unknown filetype raises `NotImplementedError(filetype)` (defensive,
unreachable for the fixed `FILETYPES`). -/
def processFiletypes (data_path : FsPath) :
    List (String × List FileEntry) → List (String × FsPath) → WriteLog →
    WriteLog × Except PyError (List (String × FsPath))
  | [], scenes, log => (log, .ok scenes)
  | (filetype, filepaths) :: rest, scenes, log =>
    if filetype = "image" then
      match processImageFiles data_path filepaths scenes log with
      | (log', .error err) => (log', .error err)
      | (log', .ok scenes') => processFiletypes data_path rest scenes' log'
    else if filetype = "netcdf" then
      match processNetcdfFiles data_path filepaths scenes log with
      | (log', .error err) => (log', .error err)
      | (log', .ok scenes') => processFiletypes data_path rest scenes' log'
    else (log, .error (.notImplemented filetype))

/-- `make_scenes(data_path)` (lines 80-114): discover files by extension;
raise `FileNotFoundError` when nothing matched; process the two categories
building the `NoReplaceDict`; finally turn it into a regular dict and
stringify the path values. Returns the write log alongside the result. -/
def make_scenes (data_path : FsPath) (dir : List FileEntry) :
    WriteLog × Except PyError (List (String × String)) :=
  let filepaths_by_filetype := discoverFiles dir
  if filepaths_by_filetype.length = 0 then
    ([], .error (.fileNotFound
      ("No valid source files found in `" ++ pathToString data_path ++ "`")))
  else
    match processFiletypes data_path filepaths_by_filetype [] [] with
    | (log, .error err) => (log, .error err)
    | (log, .ok scenes) =>
      (log, .ok (scenes.map (fun p => (p.1, pathToString p.2))))

/-! ## The YAML manifest (`produce_scene_ids`, lines 122-128)

`yaml.dump(scenes, fh, default_flow_style=False)` serializes a `str → str`
dict in block style: one `key: value` line per entry, in dict (insertion)
order, scalars quoted/escaped as needed so that loading the document yields
the dumped strings back (PyYAML round-trips `str → str` dicts exactly).
`yamlDump`/`yamlLoad` below model the block-style subset this program emits,
with every scalar in double-quoted style (PyYAML quotes exactly when needed;
always quoting is the same abstraction with an unconditional quoting rule). -/

/-- Escape a scalar for double-quoted YAML style: `\` and `"` get a
backslash, a newline becomes `\n`; every other character stands for
itself. -/
def escapeChars : List Char → List Char
  | [] => []
  | c :: cs =>
    (if c = '"' then ['\\', '"']
     else if c = '\\' then ['\\', '\\']
     else if c = '\n' then ['\\', 'n']
     else [c]) ++ escapeChars cs

/-- Parse a double-quoted scalar after its opening quote: returns the decoded
characters and the rest of the input after the closing quote. -/
def parseQuoted : List Char → Option (List Char × List Char)
  | [] => none
  | c :: rest =>
    if c = '"' then some ([], rest)
    else if c = '\\' then
      match rest with
      | [] => none
      | d :: rest2 =>
        match parseQuoted rest2 with
        | none => none
        | some (s, r) => some ((if d = 'n' then '\n' else d) :: s, r)
    else
      match parseQuoted rest with
      | none => none
      | some (s, r) => some (c :: s, r)

/-- The block-style document for a `str → str` mapping: one
`"key": "value"` line per entry, in order. -/
def yamlDumpEntries : List (String × String) → List Char
  | [] => []
  | (k, v) :: rest =>
    '"' :: (escapeChars k.toList
      ++ '"' :: ':' :: ' ' :: '"' :: (escapeChars v.toList
        ++ '"' :: '\n' :: yamlDumpEntries rest))

/-- `yaml.dump(m, fh, default_flow_style=False)` for a `str → str` dict. -/
def yamlDump (m : List (String × String)) : String :=
  String.mk (yamlDumpEntries m)

/-- Fuelled parser for the block-style document: one quoted key, `": "`, one
quoted value, newline, repeat. The fuel only bounds the number of entries;
`yamlLoad` passes enough for any input. -/
def parseEntries : Nat → List Char → Option (List (String × String))
  | 0, _ => none
  | _ + 1, [] => some []
  | fuel + 1, c :: rest =>
    if c = '"' then
      match parseQuoted rest with
      | none => none
      | some (k, r1) =>
        match r1 with
        | ':' :: ' ' :: '"' :: r2 =>
          match parseQuoted r2 with
          | none => none
          | some (v, r3) =>
            match r3 with
            | '\n' :: r4 =>
              match parseEntries fuel r4 with
              | none => none
              | some es => some ((String.mk k, String.mk v) :: es)
            | _ => none
        | _ => none
    else none

/-- `yaml.safe_load` on the block-style subset `yamlDump` emits. -/
def yamlLoad (s : String) : Option (List (String × String)) :=
  parseEntries (s.toList.length + 1) s.toList

/-- `produce_scene_ids(data_path, dst_filename=SCENE_DB_FILENAME)` (lines
122-128): run `make_scenes`, then open `data_path / SCENE_PATH /
dst_filename` in mode `"w"` (truncating any prior content) and dump the
scenes dict in block style. An error from `make_scenes` propagates and no
manifest write happens. -/
def produce_scene_ids (data_path : FsPath) (dir : List FileEntry)
    (dst_filename : String) : WriteLog × Except PyError Unit :=
  match make_scenes data_path dir with
  | (log, .error err) => (log, .error err)
  | (log, .ok scenes) =>
    (log ++ [(data_path ++ [SCENE_PATH, dst_filename], .text (yamlDump scenes))],
      .ok ())

/-! ## `masks.py` -/

/-- `rgb_greyscale_mask(da_scene, greyscale_threshold=0.2)` (masks.py lines
5-13): convert the RGB scene to greyscale with `rgb2gray` and compare each
intensity strictly against the threshold; a pure function, no filesystem
access. -/
def rgb_greyscale_mask (da_scene : List (List Rgb))
    (greyscale_threshold : Rat) : List (List Bool) :=
  let image_grey := da_scene.map (fun row => row.map rgb2gray)
  image_grey.map (fun row => row.map (fun g => decide (g > greyscale_threshold)))

/-- The grey-scaled input (`skimage.color.rgb2gray(da_scene)`), for stating
shape/elementwise properties of the mask. -/
def greyscaleImage (da : List (List Rgb)) : List (List Rat) :=
  da.map (fun row => row.map rgb2gray)

/-- Specification-side characterization of discovery (spec section 4.1): a
mapping from category name to the concatenation, over the category's
extensions in declared order, of the glob matches, with zero-match categories
omitted entirely. -/
def discoverFilesSpec (dir : List FileEntry) : List (String × List FileEntry) :=
  (FILETYPES.map (fun ft => (ft.1, (ft.2.map (globExt dir)).flatten))).filter
    (fun p => !p.2.isEmpty)

/-! ## Helper lemmas -/

theorem containsKey_append {α : Type} (d e : List (String × α)) (k : String) :
    containsKey (d ++ e) k = (containsKey d k || containsKey e k) := by
  simp [containsKey, List.any_append]

theorem assocLookup_append_self {α : Type} (d : List (String × α)) (k : String)
    (v : α) (h : containsKey d k = false) :
    assocLookup (d ++ [(k, v)]) k = some v := by
  induction d with
  | nil => simp [assocLookup]
  | cons p rest ih =>
    simp only [containsKey, List.any_cons, Bool.or_eq_false_iff] at h
    have h1 : p.1 ≠ k := by
      intro hk
      simp [hk] at h
    simpa [assocLookup, h1] using ih (by simpa [containsKey] using h.2)

theorem assocLookup_append_other {α : Type} (d : List (String × α))
    (k k' : String) (v : α) (h : k' ≠ k) :
    assocLookup (d ++ [(k, v)]) k' = assocLookup d k' := by
  induction d with
  | nil =>
    simp only [List.nil_append, assocLookup, ite_eq_right_iff]
    intro hk
    exact absurd hk.symm h
  | cons p rest ih =>
    by_cases hp : p.1 = k'
    · simp [assocLookup, hp]
    · simpa [assocLookup, hp] using ih

/-! ## C10 — `NoReplaceDict` -/

/-- C10: for every `NoReplaceDict` state `d`, key `k` and value `v`, setting
`k` when it is already present raises `KeyExistsException` (returning no
updated mapping, so the mapping is unchanged), setting `k` when absent adds
exactly the binding `k → v` and leaves every other binding's lookup
unchanged, and once `k` is inserted any further `__setitem__` on it
raises. -/
theorem noReplaceDict_setitem_correct {α : Type} (d : List (String × α))
    (k : String) (v : α) :
    (containsKey d k = true → noReplaceSetItem d k v = .error (.keyExists k))
    ∧ (containsKey d k = false →
        noReplaceSetItem d k v = .ok (d ++ [(k, v)])
        ∧ assocLookup (d ++ [(k, v)]) k = some v
        ∧ ∀ k', k' ≠ k → assocLookup (d ++ [(k, v)]) k' = assocLookup d k')
    ∧ ∀ v', noReplaceSetItem (d ++ [(k, v)]) k v' = .error (.keyExists k) := by
  refine ⟨fun h => by simp [noReplaceSetItem, h], fun h => ?_, fun v' => ?_⟩
  · exact ⟨by simp [noReplaceSetItem, h],
      assocLookup_append_self d k v h,
      fun k' hk => assocLookup_append_other d k k' v hk⟩
  · simp [noReplaceSetItem, containsKey_append, containsKey]

/-- Witness for C10 at a concrete state: inserting a present key errors,
inserting an absent key appends the binding. -/
theorem noReplaceDict_setitem_correct_witness :
    noReplaceSetItem [("a", "p")] "a" "q" = .error (.keyExists "a")
    ∧ noReplaceSetItem [("a", "p")] "b" "q" = .ok [("a", "p"), ("b", "q")] :=
  ⟨(noReplaceDict_setitem_correct [("a", "p")] "a" "q").1 (by decide),
   ((noReplaceDict_setitem_correct [("a", "p")] "b" "q").2.1 (by decide)).1⟩

/-! ## C4 — the time-derived scene identifier -/

theorem strftime_datetime_format (t : Timestamp) :
    strftime DATETIME_FORMAT t
      = padZeros 4 t.year ++ padZeros 2 t.day ++ padZeros 2 t.month
          ++ padZeros 2 t.hour ++ padZeros 2 t.minute := by
  have happ : ∀ a b : String, (a ++ b).toList = a.toList ++ b.toList :=
    fun a b => rfl
  refine String.toList_inj.mp ?_
  have hfmt : DATETIME_FORMAT.toList
      = ['%', 'Y', '%', 'd', '%', 'm', '%', 'H', '%', 'M'] := rfl
  show strftimeAux t DATETIME_FORMAT.toList = _
  rw [hfmt]
  simp [strftimeAux, strftimeDirective, happ, List.append_assoc]

/-- C4 (counterexample to the claim's concrete example): for `grid.nc` with
the single timestamp 2021-03-04T05:06:00, the derived scene id is
`"grid__202104030506"` (`%Y%d%m%H%M` zero-pads each field), which differs
from the claimed `"grid__2021040305306"`. -/
theorem time_scene_id_example_counterexample :
    individual_scenes_in_file "grid" ⟨none, some [⟨2021, 3, 4, 5, 6⟩]⟩
      = .ok [("grid__202104030506", .byTime ⟨2021, 3, 4, 5, 6⟩)]
    ∧ "grid__202104030506" ≠ "grid__2021040305306" := by
  exact ⟨rfl, by decide⟩

/-- C4 (amended): for an array-data file without a `scene_id` coordinate but
with a `time` coordinate, each scene id is the filename stem, two
underscores, and the time formatted per `%Y%d%m%H%M` — zero-padded year,
then day, then month, then hour, then minute (day before month); for the
stem `"grid"` and timestamp 2021-03-04T05:06:00 this yields
`"grid__202104030506"`. -/
theorem time_scene_ids_correct (filename_stem : String) (ts : List Timestamp) :
    individual_scenes_in_file filename_stem ⟨none, some ts⟩
      = .ok (ts.map (fun t =>
          (filename_stem ++ "__"
              ++ (padZeros 4 t.year ++ padZeros 2 t.day ++ padZeros 2 t.month
                  ++ padZeros 2 t.hour ++ padZeros 2 t.minute),
            Sel.byTime t)))
    ∧ strftime DATETIME_FORMAT ⟨2021, 3, 4, 5, 6⟩ = "202104030506" := by
  constructor
  · simp [individual_scenes_in_file, strftime_datetime_format]
  · rfl

/-! ## C2 — netCDF extraction with a `scene_id` coordinate -/

/-- C2 (code bug): for a netCDF file whose array has `scene_id` coordinate
values `["a", "b"]`, the generator does yield the ids `"a"` and `"b"`
verbatim with their slices, but `_make_netcdf_scenes` then raises
`AttributeError` on its first loop iteration
(`filename_scene.parent.mkdir(...)` where `filename_scene` is a `str`),
writes nothing, returns no mapping, and the whole run aborts — instead of
writing `scenes/a.nc`, `scenes/b.nc` and returning those pairs as the claim
states. -/
theorem netcdf_scene_id_extraction_crashes :
    individual_scenes_in_file "in" ⟨some ["a", "b"], none⟩
      = .ok [("a", .bySceneId "a"), ("b", .bySceneId "b")]
    ∧ make_netcdf_scenes ["d", "in.nc"] (.ncArray ⟨some ["a", "b"], none⟩)
      = ([], .error (.attributeError "str object has no attribute parent"))
    ∧ (make_scenes ["d"] [⟨"in.nc", .ncArray ⟨some ["a", "b"], none⟩⟩]).2
      = .error (.attributeError "str object has no attribute parent") :=
  ⟨rfl, rfl, rfl⟩

/-! ## C1 — duplicate scene identifiers -/

/-- C1 (code bug): a duplicate scene id arising through netCDF files (across
two files, or within one file) aborts the run with `AttributeError` — raised
at `filename_scene.parent.mkdir(...)` before any duplicate check can run, and
`scenes.update(...)` would in any case bypass `NoReplaceDict.__setitem__` —
not with the claimed duplicate-identifier error. Only an image–image
collision (`x.png` and `x.jpg`, both stem `"x"`) raises
`KeyExistsException("x")` as the claim states; the scene files themselves
were already written when it fires. In every failing case no manifest file is
written (the write log of `produce_scene_ids` holds only the scene files). -/
theorem duplicate_scene_id_behaviour :
    (make_scenes ["d"] [⟨"a.nc", .ncArray ⟨some ["x"], none⟩⟩,
        ⟨"b.nc", .ncArray ⟨some ["x"], none⟩⟩]).2
      = .error (.attributeError "str object has no attribute parent")
    ∧ (make_scenes ["d"] [⟨"a.nc", .ncArray ⟨some ["x", "x"], none⟩⟩]).2
      = .error (.attributeError "str object has no attribute parent")
    ∧ make_scenes ["d"] [⟨"x.png", .image [[(1, 1, 1)]]⟩,
        ⟨"x.jpg", .image [[(1, 1, 1)]]⟩]
      = ([(["d", "scenes", "x.nc"], .mask [[true]]),
          (["d", "scenes", "x.nc"], .mask [[true]])],
          .error (.keyExists "x"))
    ∧ produce_scene_ids ["d"] [⟨"x.png", .image [[(1, 1, 1)]]⟩,
        ⟨"x.jpg", .image [[(1, 1, 1)]]⟩] SCENE_DB_FILENAME
      = ([(["d", "scenes", "x.nc"], .mask [[true]]),
          (["d", "scenes", "x.nc"], .mask [[true]])],
          .error (.keyExists "x")) := by
  have hm : decide (rgb2gray (1, 1, 1) > DEFAULT_GREYSCALE_THRESHOLD) = true :=
    decide_eq_true (by norm_num [rgb2gray, DEFAULT_GREYSCALE_THRESHOLD])
  refine ⟨rfl, rfl, ?_, ?_⟩
  · have h1 : make_scenes ["d"] [⟨"x.png", .image [[(1, 1, 1)]]⟩,
        ⟨"x.jpg", .image [[(1, 1, 1)]]⟩]
        = ([(["d", "scenes", "x.nc"],
              .mask [[decide (rgb2gray (1, 1, 1) > DEFAULT_GREYSCALE_THRESHOLD)]]),
            (["d", "scenes", "x.nc"],
              .mask [[decide (rgb2gray (1, 1, 1) > DEFAULT_GREYSCALE_THRESHOLD)]])],
            .error (.keyExists "x")) := rfl
    rw [hm] at h1
    exact h1
  · have h2 : produce_scene_ids ["d"] [⟨"x.png", .image [[(1, 1, 1)]]⟩,
        ⟨"x.jpg", .image [[(1, 1, 1)]]⟩] SCENE_DB_FILENAME
        = ([(["d", "scenes", "x.nc"],
              .mask [[decide (rgb2gray (1, 1, 1) > DEFAULT_GREYSCALE_THRESHOLD)]]),
            (["d", "scenes", "x.nc"],
              .mask [[decide (rgb2gray (1, 1, 1) > DEFAULT_GREYSCALE_THRESHOLD)]])],
            .error (.keyExists "x")) := rfl
    rw [hm] at h2
    exact h2

/-! ## C5 — No-Input -/

/-- C5: when no file of the directory matches any recognized extension (png,
jpg, jpeg, nc, nc4), `make_scenes` fails with `FileNotFoundError` and its
write log is empty — the failure happens before any filesystem write. -/
theorem no_input_error (data_path : FsPath) (dir : List FileEntry)
    (h : ∀ f ∈ dir, ∀ ft ∈ FILETYPES, ∀ ext ∈ ft.2,
        strEndsWith f.name ("." ++ ext) = false) :
    make_scenes data_path dir
      = ([], .error (.fileNotFound
          ("No valid source files found in `" ++ pathToString data_path ++ "`"))) := by
  have hg : ∀ ft ∈ FILETYPES, ∀ ext ∈ ft.2, globExt dir ext = [] := by
    intro ft hft ext hext
    refine List.filter_eq_nil_iff.mpr ?_
    intro f hf
    simp [h f hf ft hft ext hext]
  have h1 := hg ("image", ["png", "jpg", "jpeg"]) (by simp [FILETYPES])
  have h2 := hg ("netcdf", ["nc", "nc4"]) (by simp [FILETYPES])
  have hd : discoverFiles dir = [] := by
    simp [discoverFiles, FILETYPES, addGlobbed,
      h1 "png" (by simp), h1 "jpg" (by simp), h1 "jpeg" (by simp),
      h2 "nc" (by simp), h2 "nc4" (by simp)]
  simp [make_scenes, hd]

/-- Witness for C5: a directory holding only `a.txt` fails with
`FileNotFoundError` and nothing written. -/
theorem no_input_error_witness :
    make_scenes ["d"] [⟨"a.txt", .other⟩]
      = ([], .error (.fileNotFound "No valid source files found in `d`")) :=
  no_input_error ["d"] [⟨"a.txt", .other⟩] (by decide)

/-! ## C6 — Unsupported-Source-Format -/

/-- C6: a netCDF source file whose array has neither a `scene_id` nor a
`time` coordinate makes `_make_netcdf_scenes` raise `NotImplementedError`
(with nothing written), and `make_scenes` on a directory holding such a file
propagates exactly that error, aborting the run (the source catches no
exceptions). -/
theorem netcdf_missing_coords_error (filepath data_path : FsPath)
    (da : NcArray) (h1 : da.scene_ids = none) (h2 : da.times = none) :
    make_netcdf_scenes filepath (.ncArray da)
      = ([], .error (.notImplemented
          ("When using a netCDF file as source it should either"
            ++ "have a `scene_id` or `time` 1D coordinate defined")))
    ∧ (make_scenes data_path [⟨"a.nc", .ncArray da⟩]).2
      = .error (.notImplemented
          ("When using a netCDF file as source it should either"
            ++ "have a `scene_id` or `time` 1D coordinate defined")) := by
  have hmk : ∀ fp : FsPath, make_netcdf_scenes fp (.ncArray da)
      = ([], .error (.notImplemented
          ("When using a netCDF file as source it should either"
            ++ "have a `scene_id` or `time` 1D coordinate defined"))) := by
    intro fp
    simp [make_netcdf_scenes, individual_scenes_in_file, h1, h2]
  refine ⟨hmk filepath, ?_⟩
  have hdisc : discoverFiles [⟨"a.nc", .ncArray da⟩]
      = [("netcdf", [⟨"a.nc", .ncArray da⟩])] := rfl
  simp [make_scenes, hdisc, processFiletypes, processNetcdfFiles, hmk]

/-- Witness for C6 at the concrete array with no coordinates at all. -/
theorem netcdf_missing_coords_error_witness :
    make_netcdf_scenes ["d", "a.nc"] (.ncArray ⟨none, none⟩)
      = ([], .error (.notImplemented
          ("When using a netCDF file as source it should either"
            ++ "have a `scene_id` or `time` 1D coordinate defined")))
    ∧ (make_scenes ["d"] [⟨"a.nc", .ncArray ⟨none, none⟩⟩]).2
      = .error (.notImplemented
          ("When using a netCDF file as source it should either"
            ++ "have a `scene_id` or `time` 1D coordinate defined")) :=
  netcdf_missing_coords_error ["d", "a.nc"] ["d"] ⟨none, none⟩ rfl rfl

/-! ## C8 — `rgb_greyscale_mask`, and C3 — the image scene -/

theorem rgb_greyscale_mask_as_map (da : List (List Rgb)) (t : Rat) :
    rgb_greyscale_mask da t
      = (greyscaleImage da).map (fun row => row.map (fun g => decide (g > t))) :=
  rfl

theorem thresholded_getD (l : List (List Rat)) (t : Rat) (i : Nat) :
    (l.map (fun row => row.map (fun g => decide (g > t)))).getD i []
      = (l.getD i []).map (fun g => decide (g > t)) := by
  simpa using List.getD_map l [] (fun row => row.map (fun g => decide (g > t)))

theorem thresholded_getD_length (l : List (List Rat)) (t : Rat) (i : Nat) :
    ((l.map (fun row => row.map (fun g => decide (g > t)))).getD i []).length
      = (l.getD i []).length := by
  rw [thresholded_getD, List.length_map]

theorem thresholded_getD_getD (l : List (List Rat)) (t : Rat) (i j : Nat)
    (hj : j < (l.getD i []).length) :
    ((l.map (fun row => row.map (fun g => decide (g > t)))).getD i []).getD j false
      = decide ((l.getD i []).getD j 0 > t) := by
  rw [thresholded_getD]
  rw [List.getD_eq_getElem ((l.getD i []).map (fun g => decide (g > t))) false
      (by simpa using hj),
    List.getD_eq_getElem (l.getD i []) 0 hj, List.getElem_map]

/-- C8: `rgb_greyscale_mask` is a pure transform whose result has the same 2D
shape as the grey-scaled input (`greyscaleImage`), and whose entry at any
in-range position `(i, j)` is `true` exactly when the greyscale intensity
there is strictly greater than the threshold. -/
theorem rgb_greyscale_mask_correct (da : List (List Rgb)) (t : Rat) (i j : Nat)
    (hi : i < (greyscaleImage da).length)
    (hj : j < ((greyscaleImage da).getD i []).length) :
    (rgb_greyscale_mask da t).length = (greyscaleImage da).length
    ∧ ((rgb_greyscale_mask da t).getD i []).length
        = ((greyscaleImage da).getD i []).length
    ∧ (((rgb_greyscale_mask da t).getD i []).getD j false = true
        ↔ ((greyscaleImage da).getD i []).getD j 0 > t) := by
  rw [rgb_greyscale_mask_as_map]
  exact ⟨by simp, thresholded_getD_length _ t i,
    by rw [thresholded_getD_getD _ t i j hj, decide_eq_true_iff]⟩

/-- Witness for C8 on a one-pixel red image with the default threshold: the
shape is preserved and the single mask entry is `true` iff the greyscale
intensity `0.2125` exceeds `0.2`. -/
theorem rgb_greyscale_mask_correct_witness :
    (rgb_greyscale_mask [[(1, 0, 0)]] 0.2).length
        = (greyscaleImage [[(1, 0, 0)]]).length
    ∧ ((rgb_greyscale_mask [[(1, 0, 0)]] 0.2).getD 0 []).length
        = ((greyscaleImage [[(1, 0, 0)]]).getD 0 []).length
    ∧ (((rgb_greyscale_mask [[(1, 0, 0)]] 0.2).getD 0 []).getD 0 false = true
        ↔ ((greyscaleImage [[(1, 0, 0)]]).getD 0 []).getD 0 0 > 0.2) :=
  rgb_greyscale_mask_correct [[(1, 0, 0)]] 0.2 0 0 (by simp [greyscaleImage])
    (by simp [greyscaleImage])

/-- C3: extracting an image file produces the scene id `stem(filename)`,
writes the file `<parent>/scenes/<stem>.nc` whose content is the boolean
array `greyscale(image) > 0.2` (the same array `rgb_greyscale_mask` computes:
`true` at an in-range position iff the greyscale intensity there strictly
exceeds `0.2`), and returns the `(scene_id, output_path)` pair. -/
theorem make_image_scene_correct (filepath : FsPath) (pixels : List (List Rgb))
    (i j : Nat) (hi : i < (greyscaleImage pixels).length)
    (hj : j < ((greyscaleImage pixels).getD i []).length) :
    make_image_scene filepath (.image pixels) 0.2
      = .ok ((pathStem filepath,
              pathParent filepath ++ [SCENE_PATH, pathStem filepath ++ ".nc"]),
             (pathParent filepath ++ [SCENE_PATH, pathStem filepath ++ ".nc"],
              .mask (rgb_greyscale_mask pixels 0.2)))
    ∧ (((rgb_greyscale_mask pixels 0.2).getD i []).getD j false = true
        ↔ ((greyscaleImage pixels).getD i []).getD j 0 > 0.2) := by
  refine ⟨rfl, ?_⟩
  rw [rgb_greyscale_mask_as_map]
  rw [thresholded_getD_getD _ _ i j hj, decide_eq_true_iff]

/-- Witness for C3: the file `d/foo.png` holding one red pixel yields scene
id `"foo"`, the output path `d/scenes/foo.nc`, and a mask entry decided by
`0.2125 > 0.2`. -/
theorem make_image_scene_correct_witness :
    make_image_scene ["d", "foo.png"] (.image [[(1, 0, 0)]]) 0.2
      = .ok (("foo", ["d", SCENE_PATH, "foo" ++ ".nc"]),
             (["d", SCENE_PATH, "foo" ++ ".nc"],
              .mask (rgb_greyscale_mask [[(1, 0, 0)]] 0.2)))
    ∧ (((rgb_greyscale_mask [[(1, 0, 0)]] 0.2).getD 0 []).getD 0 false = true
        ↔ ((greyscaleImage [[(1, 0, 0)]]).getD 0 []).getD 0 0 > 0.2) :=
  make_image_scene_correct ["d", "foo.png"] [[(1, 0, 0)]] 0 0
    (by simp [greyscaleImage]) (by simp [greyscaleImage])

/-! ## C7 — file discovery -/

/-- C7: the discovery loop returns exactly the mapping that, for each
category of `FILETYPES` in declared order (`"image"`, then `"netcdf"` — the
category the specification names "array-data"), associates the concatenation
of the per-extension glob matches in the declared extension order, with a
category entirely absent whenever it has zero matches. -/
theorem discoverFiles_correct (dir : List FileEntry) :
    discoverFiles dir = discoverFilesSpec dir := by
  simp only [discoverFiles, discoverFilesSpec, FILETYPES, List.foldl_cons,
    List.foldl_nil, List.map_cons, List.map_nil, List.filter_cons,
    List.filter_nil]
  rcases h1 : globExt dir "png" with _ | ⟨a1, t1⟩ <;>
    rcases h2 : globExt dir "jpg" with _ | ⟨a2, t2⟩ <;>
    rcases h3 : globExt dir "jpeg" with _ | ⟨a3, t3⟩ <;>
    rcases h4 : globExt dir "nc" with _ | ⟨a4, t4⟩ <;>
    rcases h5 : globExt dir "nc4" with _ | ⟨a5, t5⟩ <;>
    simp [addGlobbed, containsKey]

/-! ## C9 — the manifest and its round-trip -/

theorem stringMk_toList (s : String) : String.mk s.toList = s := rfl

theorem parseQuoted_escape (s rest : List Char) :
    parseQuoted (escapeChars s ++ '"' :: rest) = some (s, rest) := by
  induction s with
  | nil =>
    rw [show escapeChars [] ++ '"' :: rest = '"' :: rest by simp [escapeChars]]
    rw [parseQuoted.eq_def]
    simp
  | cons c cs ih =>
    by_cases hq : c = '"'
    · subst hq
      rw [show escapeChars ('"' :: cs) ++ '"' :: rest
          = '\\' :: '"' :: (escapeChars cs ++ '"' :: rest) by simp [escapeChars]]
      rw [parseQuoted.eq_def]
      simp [ih]
    · by_cases hb : c = '\\'
      · subst hb
        rw [show escapeChars ('\\' :: cs) ++ '"' :: rest
            = '\\' :: '\\' :: (escapeChars cs ++ '"' :: rest) by
          simp [escapeChars]]
        rw [parseQuoted.eq_def]
        simp [ih]
      · by_cases hn : c = '\n'
        · subst hn
          rw [show escapeChars ('\n' :: cs) ++ '"' :: rest
              = '\\' :: 'n' :: (escapeChars cs ++ '"' :: rest) by
            simp [escapeChars]]
          rw [parseQuoted.eq_def]
          simp [ih]
        · rw [show escapeChars (c :: cs) ++ '"' :: rest
              = c :: (escapeChars cs ++ '"' :: rest) by
            simp [escapeChars, hq, hb, hn]]
          rw [parseQuoted.eq_def]
          simp [hq, hb, ih]

theorem yamlDumpEntries_length (m : List (String × String)) :
    m.length ≤ (yamlDumpEntries m).length := by
  induction m with
  | nil => simp [yamlDumpEntries]
  | cons p rest ih =>
    cases p
    simp only [yamlDumpEntries, List.length_cons, List.length_append]
    omega

theorem parseEntries_dump (m : List (String × String)) :
    ∀ fuel : Nat, m.length < fuel →
      parseEntries fuel (yamlDumpEntries m) = some m := by
  induction m with
  | nil =>
    intro fuel hf
    cases fuel with
    | zero => omega
    | succ f => simp [yamlDumpEntries, parseEntries]
  | cons p rest ih =>
    intro fuel hf
    cases fuel with
    | zero => omega
    | succ f =>
      obtain ⟨k, v⟩ := p
      have hf' : rest.length < f := by
        simpa using Nat.lt_of_succ_lt_succ hf
      simp [yamlDumpEntries, parseEntries, parseQuoted_escape, ih f hf',
        stringMk_toList]

theorem yamlLoad_yamlDump (m : List (String × String)) :
    yamlLoad (yamlDump m) = some m := by
  have hlen : m.length < (yamlDumpEntries m).length + 1 :=
    Nat.lt_succ_of_le (yamlDumpEntries_length m)
  have ht : (yamlDump m).toList = yamlDumpEntries m := rfl
  simp only [yamlLoad, ht]
  exact parseEntries_dump m _ hlen

theorem applyLog_append_last (fs : FsPath → Option FileData) (log : WriteLog)
    (p : FsPath) (d : FileData) :
    applyLog fs (log ++ [(p, d)]) p = some d := by
  simp [applyLog, List.foldl_append]

/-- C9: whenever `make_scenes` succeeds with manifest mapping `m` (whose
values `make_scenes` has already converted to plain path strings),
`produce_scene_ids` appends exactly one write — the block-style YAML dump of
`m` at `<data_path>/scenes/scene_ids.yml` — so that after the run the
manifest file holds `yamlDump m` regardless of any prior content at that
path (mode `"w"` overwrites), and loading the dumped document yields exactly
`m` back (write-then-read round-trip). -/
theorem produce_scene_ids_roundtrip (data_path : FsPath) (dir : List FileEntry)
    (m : List (String × String)) (log : WriteLog)
    (h : make_scenes data_path dir = (log, .ok m))
    (fs : FsPath → Option FileData) :
    produce_scene_ids data_path dir SCENE_DB_FILENAME
      = (log ++ [(data_path ++ [SCENE_PATH, SCENE_DB_FILENAME],
          .text (yamlDump m))], .ok ())
    ∧ applyLog fs (produce_scene_ids data_path dir SCENE_DB_FILENAME).1
        (data_path ++ [SCENE_PATH, SCENE_DB_FILENAME])
      = some (.text (yamlDump m))
    ∧ yamlLoad (yamlDump m) = some m := by
  have h0 : produce_scene_ids data_path dir SCENE_DB_FILENAME
      = (log ++ [(data_path ++ [SCENE_PATH, SCENE_DB_FILENAME],
          .text (yamlDump m))], .ok ()) := by
    simp [produce_scene_ids, h]
  refine ⟨h0, ?_, yamlLoad_yamlDump m⟩
  rw [h0]
  exact applyLog_append_last fs log _ _

/-- Witness for C9 on the successful run over `d/foo.png`: the manifest write
happens at `d/scenes/scene_ids.yml`, lands in the final filesystem, and the
dumped document loads back to `[("foo", "d/scenes/foo.nc")]`. -/
theorem produce_scene_ids_roundtrip_witness :
    produce_scene_ids ["d"] [⟨"foo.png", .image [[(1, 1, 1)]]⟩]
        SCENE_DB_FILENAME
      = ([(["d", "scenes", "foo.nc"], .mask [[true]]),
          (["d", "scenes", "scene_ids.yml"],
            .text (yamlDump [("foo", "d/scenes/foo.nc")]))], .ok ())
    ∧ applyLog (fun _ => none)
        (produce_scene_ids ["d"] [⟨"foo.png", .image [[(1, 1, 1)]]⟩]
          SCENE_DB_FILENAME).1
        ["d", "scenes", "scene_ids.yml"]
      = some (.text (yamlDump [("foo", "d/scenes/foo.nc")]))
    ∧ yamlLoad (yamlDump [("foo", "d/scenes/foo.nc")])
      = some [("foo", "d/scenes/foo.nc")] := by
  have hm : decide (rgb2gray (1, 1, 1) > DEFAULT_GREYSCALE_THRESHOLD) = true :=
    decide_eq_true (by norm_num [rgb2gray, DEFAULT_GREYSCALE_THRESHOLD])
  have h : make_scenes ["d"] [⟨"foo.png", .image [[(1, 1, 1)]]⟩]
      = ([(["d", "scenes", "foo.nc"],
            .mask [[decide (rgb2gray (1, 1, 1) > DEFAULT_GREYSCALE_THRESHOLD)]])],
          .ok [("foo", "d/scenes/foo.nc")]) := rfl
  rw [hm] at h
  exact produce_scene_ids_roundtrip ["d"] [⟨"foo.png", .image [[(1, 1, 1)]]⟩]
    [("foo", "d/scenes/foo.nc")] [(["d", "scenes", "foo.nc"], .mask [[true]])]
    h (fun _ => none)

end CloudmetricsPipeline
